import Mathlib

/-!
Verification development for the Quantitative Estimation Engine of
opscart-k8s-watcher: a shallow embedding in Lean 4 of the analyzer
package (`pkg/analyzer/riskcost.go`, `pkg/analyzer/riskcost_config.go`,
`pkg/analyzer/costs.go`, `pkg/analyzer/resources.go`) and its data model
(`pkg/models/resources.go`, `pkg/models/security.go`).

Modelling conventions, used consistently below:
* Go `float64` values are embedded as `ℚ`.  All arithmetic the engine
  performs on finite inputs is exact rational arithmetic, so the
  embedding is exact except at divisions whose denominator is zero.
* Wherever the source divides by a quantity that can be zero in the
  function's own input domain, the division is embedded as `fdiv`,
  returning `Option ℚ`: `some q` is the exact finite IEEE result and
  `none` marks that the IEEE result is nonfinite (`±Inf` or `NaN`).
* Presentation-only strings that interpolate floats with `fmt.Sprintf`
  (`Description`, `Impact`, `Actions`, `TypicalIncidents`,
  `IndustryExamples`) are omitted from the embedded records; no claim
  concerns them.  All numeric fields, names, severities, effort/risk/
  timeline labels and priority labels are embedded.
-/

/-- Embedding of Go `float64` division `x / y`.  `some` carries the exact
finite quotient; `none` abstracts a nonfinite IEEE result, produced when
the denominator is zero (`±Inf` for a nonzero numerator, `NaN` for `0/0`). -/
def fdiv (x y : ℚ) : Option ℚ :=
  if y = 0 then none else some (x / y)

/-- `pkg/models/resources.go`: `CostRange` — a low/best/high estimate band. -/
structure CostRange where
  low : ℚ
  best : ℚ
  high : ℚ
deriving DecidableEq, Repr

/-- Componentwise monotonicity and nonnegativity of a `CostRange`:
`0 ≤ low ≤ best ≤ high` (the invariant stated by the spec). -/
def CostRange.Mono (r : CostRange) : Prop :=
  0 ≤ r.low ∧ r.low ≤ r.best ∧ r.best ≤ r.high

instance (r : CostRange) : Decidable r.Mono := by
  unfold CostRange.Mono; infer_instance

/-- `pkg/models/security.go`: `SecurityRisks` — counts of each audited
security-issue type (Go `int` fields; the auditor only produces
nonnegative counts, embedded as `ℕ`). -/
structure SecurityRisks where
  runningAsRoot : ℕ
  privilegedContainers : ℕ
  hostNetwork : ℕ
  hostPID : ℕ
  hostIPC : ℕ
  hostPathVolumes : ℕ
  defaultServiceAccount : ℕ
  missingResourceLimits : ℕ
  missingProbes : ℕ
  addedCapabilities : ℕ
  privilegeEscalation : ℕ
  writableFilesystem : ℕ
deriving DecidableEq, Repr

/-- `pkg/models/security.go`: `SecurityAudit`, restricted to the fields the
risk-cost analyzer reads (`SecurityScore`, `Risks`) plus
`TotalPodsAudited`; the `Issues`/`PriorityActions` fields are never read
by `CalculateRiskCost` and are omitted. -/
structure SecurityAudit where
  totalPodsAudited : ℕ
  securityScore : ℤ
  risks : SecurityRisks
deriving DecidableEq, Repr

/-- `pkg/analyzer/riskcost_config.go`: `RiskCostConfig` — industry-specific
risk parameters. -/
structure RiskCostConfig where
  industry : String
  engineerHourlyRate : ℚ
  privilegedContainerCost : ℚ
  hostPathCost : ℚ
  hostPIDCost : ℚ
  runningAsRootCost : ℚ
  hostNetworkCost : ℚ
  missingLimitsCost : ℚ
  defaultSACost : ℚ
  publicFacingMultiplier : ℚ
  internetExposedMultiplier : ℚ
  privilegedAndHostPath : ℚ
  rootAndHostNetwork : ℚ
deriving DecidableEq, Repr

/-- `riskcost_config.go` `DefaultConfig`: defaults for the generic industry. -/
def DefaultConfig : RiskCostConfig where
  industry := "generic"
  engineerHourlyRate := 200
  privilegedContainerCost := 25000
  hostPathCost := 35000
  hostPIDCost := 20000
  runningAsRootCost := 8000
  hostNetworkCost := 12000
  missingLimitsCost := 5000
  defaultSACost := 6000
  publicFacingMultiplier := 1.5
  internetExposedMultiplier := 2.0
  privilegedAndHostPath := 1.8
  rootAndHostNetwork := 1.4

/-- `riskcost_config.go` `PharmaConfig`: pharmaceutical industry preset. -/
def PharmaConfig : RiskCostConfig where
  industry := "pharma"
  engineerHourlyRate := 200
  privilegedContainerCost := 50000
  hostPathCost := 70000
  hostPIDCost := 40000
  runningAsRootCost := 15000
  hostNetworkCost := 20000
  missingLimitsCost := 8000
  defaultSACost := 10000
  publicFacingMultiplier := 2.0
  internetExposedMultiplier := 3.0
  privilegedAndHostPath := 2.2
  rootAndHostNetwork := 1.6

/-- `riskcost_config.go` `FintechConfig`: financial-services preset. -/
def FintechConfig : RiskCostConfig where
  industry := "fintech"
  engineerHourlyRate := 250
  privilegedContainerCost := 40000
  hostPathCost := 60000
  hostPIDCost := 35000
  runningAsRootCost := 12000
  hostNetworkCost := 18000
  missingLimitsCost := 10000
  defaultSACost := 9000
  publicFacingMultiplier := 1.8
  internetExposedMultiplier := 2.5
  privilegedAndHostPath := 2.0
  rootAndHostNetwork := 1.5

/-- `riskcost_config.go` `StartupConfig`: startup preset. -/
def StartupConfig : RiskCostConfig where
  industry := "startup"
  engineerHourlyRate := 150
  privilegedContainerCost := 15000
  hostPathCost := 20000
  hostPIDCost := 12000
  runningAsRootCost := 5000
  hostNetworkCost := 8000
  missingLimitsCost := 3000
  defaultSACost := 4000
  publicFacingMultiplier := 1.3
  internetExposedMultiplier := 1.5
  privilegedAndHostPath := 1.5
  rootAndHostNetwork := 1.3

/-- `riskcost_config.go` `GetConfigForIndustry`: resolves an industry
selector string to a preset.  The Go `switch` compares strings exactly
(case-sensitively); unmatched values fall through to `DefaultConfig`. -/
def GetConfigForIndustry (industry : String) : RiskCostConfig :=
  if industry = "pharma" ∨ industry = "pharmaceutical" ∨
     industry = "healthcare" ∨ industry = "medical" then PharmaConfig
  else if industry = "fintech" ∨ industry = "finance" ∨
     industry = "banking" ∨ industry = "payment" then FintechConfig
  else if industry = "startup" ∨ industry = "early-stage" then StartupConfig
  else DefaultConfig

/-- `pkg/models/*` (via `part_007`): `RiskCategory`, restricted to its
computed fields (`Name`, `Severity`, `Count`, `RiskExposure`); the
narrative string slices are presentation data and are omitted. -/
structure RiskCategory where
  name : String
  severity : String
  count : ℕ
  riskExposure : CostRange
deriving DecidableEq, Repr

/-- `riskcost.go` `calculateRiskCategories`: maps each vulnerability count
to a financial risk category.  Each branch of the Go function appends one
category when its count is positive; the exposure formulas (probability
and band multipliers) are transcribed literally from the source. -/
def calculateRiskCategories (cfg : RiskCostConfig) (risks : SecurityRisks) :
    List RiskCategory :=
  (if risks.privilegedContainers > 0 then
    [{ name := "Privileged Containers", severity := "critical",
       count := risks.privilegedContainers,
       riskExposure :=
        { low := (risks.privilegedContainers : ℚ) * cfg.privilegedContainerCost * (0.15 * 0.5),
          best := (risks.privilegedContainers : ℚ) * cfg.privilegedContainerCost * 0.15,
          high := (risks.privilegedContainers : ℚ) * cfg.privilegedContainerCost * (0.15 * 2.0) } }]
   else []) ++
  (if risks.hostPathVolumes > 0 then
    [{ name := "Host Path Volumes", severity := "critical",
       count := risks.hostPathVolumes,
       riskExposure :=
        { low := (risks.hostPathVolumes : ℚ) * cfg.hostPathCost * (0.20 * 0.5),
          best := (risks.hostPathVolumes : ℚ) * cfg.hostPathCost * 0.20,
          high := (risks.hostPathVolumes : ℚ) * cfg.hostPathCost * (0.20 * 2.0) } }]
   else []) ++
  (if risks.hostPID > 0 then
    [{ name := "Host PID Namespace", severity := "critical",
       count := risks.hostPID,
       riskExposure :=
        { low := (risks.hostPID : ℚ) * cfg.hostPIDCost * (0.12 * 0.5),
          best := (risks.hostPID : ℚ) * cfg.hostPIDCost * 0.12,
          high := (risks.hostPID : ℚ) * cfg.hostPIDCost * (0.12 * 2.0) } }]
   else []) ++
  (if risks.runningAsRoot > 0 then
    [{ name := "Containers Running as Root", severity := "high",
       count := risks.runningAsRoot,
       riskExposure :=
        { low := (risks.runningAsRoot : ℚ) * cfg.runningAsRootCost * (0.10 * 0.3),
          best := (risks.runningAsRoot : ℚ) * cfg.runningAsRootCost * 0.10,
          high := (risks.runningAsRoot : ℚ) * cfg.runningAsRootCost * (0.10 * 1.5) } }]
   else []) ++
  (if risks.hostNetwork > 0 then
    [{ name := "Host Network Usage", severity := "high",
       count := risks.hostNetwork,
       riskExposure :=
        { low := (risks.hostNetwork : ℚ) * cfg.hostNetworkCost * (0.08 * 0.5),
          best := (risks.hostNetwork : ℚ) * cfg.hostNetworkCost * 0.08,
          high := (risks.hostNetwork : ℚ) * cfg.hostNetworkCost * (0.08 * 1.5) } }]
   else []) ++
  (if risks.missingResourceLimits > 0 then
    [{ name := "Missing Resource Limits", severity := "medium",
       count := risks.missingResourceLimits,
       riskExposure :=
        { low := (risks.missingResourceLimits : ℚ) * cfg.missingLimitsCost * (0.25 * 0.5),
          best := (risks.missingResourceLimits : ℚ) * cfg.missingLimitsCost * 0.25,
          high := (risks.missingResourceLimits : ℚ) * cfg.missingLimitsCost * (0.25 * 1.5) } }]
   else []) ++
  (if risks.defaultServiceAccount > 0 then
    [{ name := "Default Service Account Usage", severity := "medium",
       count := risks.defaultServiceAccount,
       riskExposure :=
        { low := (risks.defaultServiceAccount : ℚ) * cfg.defaultSACost * (0.06 * 0.5),
          best := (risks.defaultServiceAccount : ℚ) * cfg.defaultSACost * 0.06,
          high := (risks.defaultServiceAccount : ℚ) * cfg.defaultSACost * (0.06 * 1.5) } }]
   else [])

/-- `riskcost.go` `calculateTotalRisk`: componentwise sum of the exposure
ranges of all categories (the Go loop accumulates three floats). -/
def calculateTotalRisk (categories : List RiskCategory) : CostRange where
  low := (categories.map (fun c => c.riskExposure.low)).sum
  best := (categories.map (fun c => c.riskExposure.best)).sum
  high := (categories.map (fun c => c.riskExposure.high)).sum

/-- `riskcost.go` `estimateTimeline`, final branch: `fmt.Sprintf("%.0f
weeks", hours/40)`.  `%.0f` rounds to the nearest integer with ties to
even; embedded here with exact half-even rounding of the rational
quotient. -/
def weeksLabel (w : ℚ) : String :=
  let f : ℤ := Int.floor w
  let frac : ℚ := w - f
  let n : ℤ :=
    if frac < 1/2 then f
    else if frac > 1/2 then f + 1
    else if f % 2 = 0 then f else f + 1
  toString n ++ " weeks"

/-- `riskcost.go` `estimateTimeline`: converts hours to a calendar label
by fixed buckets. -/
def estimateTimeline (hours : ℚ) : String :=
  if hours ≤ 8 then "1 day"
  else if hours ≤ 16 then "2 days"
  else if hours ≤ 40 then "1 week"
  else if hours ≤ 80 then "2 weeks"
  else if hours ≤ 160 then "1 month"
  else weeksLabel (hours / 40)

/-- `riskcost.go` `calculateRemediationPlan`, `switch cat.Severity`:
hours of remediation effort per issue.  The Go `switch` leaves
`hoursPerIssue` at its zero value for any other severity. -/
def hoursPerIssue (severity : String) : ℚ :=
  if severity = "critical" then 2.0
  else if severity = "high" then 1.0
  else if severity = "medium" then 0.5
  else 0

/-- `riskcost.go` `calculateRemediationPlan`, accumulation loop: returns
`(totalHours, criticalHours, highHours, mediumHours)` exactly as the Go
`for` loop accumulates them. -/
def remediationHours (categories : List RiskCategory) : ℚ × ℚ × ℚ × ℚ :=
  categories.foldl
    (fun acc cat =>
      let h := hoursPerIssue cat.severity
      ( acc.1 + (cat.count : ℚ) * h,
        if cat.severity = "critical" then acc.2.1 + (cat.count : ℚ) * h else acc.2.1,
        if cat.severity = "high" then acc.2.2.1 + (cat.count : ℚ) * h else acc.2.2.1,
        if cat.severity = "medium" then acc.2.2.2 + (cat.count : ℚ) * h else acc.2.2.2 ))
    (0, 0, 0, 0)

/-- `pkg/models/*` (via `part_007`): `RemediationPhase`. -/
structure RemediationPhase where
  name : String
  duration : String
  hours : ℚ
  cost : ℚ
  priority : String
deriving DecidableEq, Repr

/-- `pkg/models/*` (via `part_007`): `RemediationPlan`.  `ROI` and
`PaybackMonths` are Go `float64` fields produced by bare divisions; they
are embedded as `Option ℚ` (`none` = the IEEE result is nonfinite). -/
structure RemediationPlan where
  totalHours : ℚ
  criticalHours : ℚ
  highHours : ℚ
  mediumHours : ℚ
  estimatedCost : ℚ
  riskReduction : ℚ
  roi : Option ℚ
  paybackMonths : Option ℚ
  timeline : String
  phases : List RemediationPhase
deriving DecidableEq, Repr

/-- `riskcost.go` `calculateRemediationPlan`: estimates cost to fix issues
and ROI.  The Go function computes `roi := riskReduction / totalCost` and
`paybackMonths := totalCost / (riskReduction / 12.0)` with no guard on
either denominator and returns the plan unconditionally — there is no
error path. -/
def calculateRemediationPlan (cfg : RiskCostConfig)
    (categories : List RiskCategory) : RemediationPlan :=
  let hrs := remediationHours categories
  let totalHours := hrs.1
  let criticalHours := hrs.2.1
  let highHours := hrs.2.2.1
  let mediumHours := hrs.2.2.2
  let engineerRate := cfg.engineerHourlyRate
  let totalCost := totalHours * engineerRate
  let riskReduction := (calculateTotalRisk categories).best
  let roi := fdiv riskReduction totalCost
  let monthlyRiskReduction := riskReduction / 12
  let paybackMonths := fdiv totalCost monthlyRiskReduction
  { totalHours := totalHours
    criticalHours := criticalHours
    highHours := highHours
    mediumHours := mediumHours
    estimatedCost := totalCost
    riskReduction := riskReduction
    roi := roi
    paybackMonths := paybackMonths
    timeline := estimateTimeline totalHours
    phases :=
      [ { name := "Phase 1: Critical Issues",
          duration := estimateTimeline criticalHours,
          hours := criticalHours, cost := criticalHours * engineerRate,
          priority := "IMMEDIATE" },
        { name := "Phase 2: High Priority",
          duration := estimateTimeline highHours,
          hours := highHours, cost := highHours * engineerRate,
          priority := "THIS WEEK" },
        { name := "Phase 3: Medium Priority",
          duration := estimateTimeline mediumHours,
          hours := mediumHours, cost := mediumHours * engineerRate,
          priority := "THIS MONTH" } ] }

/-- `riskcost.go` `sumRiskExposure`: sums the best-estimate risk across
categories. -/
def sumRiskExposure (categories : List RiskCategory) : ℚ :=
  (categories.map (fun c => c.riskExposure.best)).sum

/-- One entry of the `[]string` returned by
`generatePriorityRecommendations`.  The headline entry is a
`fmt.Sprintf` over a count and an aggregate exposure; its formatting is
abstracted to the two numeric arguments (count of critical categories,
`sumRiskExposure/1000`), the fixed entries are kept as their literal
strings. -/
inductive Recommendation where
  | immediateCritical (count : ℕ) (exposureThousands : ℚ)
  | fixed (text : String)
deriving DecidableEq, Repr

/-- `riskcost.go` `generatePriorityRecommendations`: filters categories to
severity "critical" with best exposure > 1000; emits a headline when any
exist, then always appends the four fixed hardening recommendations. -/
def generatePriorityRecommendations (categories : List RiskCategory) :
    List Recommendation :=
  let criticalCategories :=
    categories.filter (fun c => c.severity = "critical" ∧ c.riskExposure.best > 1000)
  (if criticalCategories.length > 0 then
    [Recommendation.immediateCritical criticalCategories.length
      (sumRiskExposure criticalCategories / 1000)]
   else []) ++
  [ Recommendation.fixed "Implement Kubernetes Pod Security Standards (PSS) at namespace level",
    Recommendation.fixed "Configure network policies to segment workloads and limit lateral movement",
    Recommendation.fixed "Enable audit logging to detect exploitation attempts",
    Recommendation.fixed "Add security scanning in CI/CD pipeline to prevent future issues" ]

/-- `pkg/models/*` (via `part_007`): `RiskCostAnalysis`. -/
structure RiskCostAnalysis where
  securityScore : ℤ
  totalRiskExposure : CostRange
  riskCategories : List RiskCategory
  remediationPlan : RemediationPlan
  priorityRecommendations : List Recommendation
deriving DecidableEq, Repr

/-- `riskcost.go` `CalculateRiskCost`: maps security vulnerabilities to
financial risk.  The receiver's `securityAudit` and `config` fields are
passed explicitly. -/
def CalculateRiskCost (cfg : RiskCostConfig) (audit : SecurityAudit) :
    RiskCostAnalysis :=
  let categories := calculateRiskCategories cfg audit.risks
  { securityScore := audit.securityScore
    totalRiskExposure := calculateTotalRisk categories
    riskCategories := categories
    remediationPlan := calculateRemediationPlan cfg categories
    priorityRecommendations := generatePriorityRecommendations categories }

/-- `pkg/models/resources.go`: `NamespaceResourceUsage`, with the
percentage fields abstracted over a carrier `α`.  The resource analyzer
produces `α = Option ℚ` (`CPUPercent`/`MemoryPercent` are `float64`
division results that are nonfinite when cluster capacity is zero); the
cost analyzer reads the finite view `α = ℚ`, exact whenever capacity is
positive (see `analyzeClusterResources_namespaces_pos`).  The `Flags`
field is presentation data and is omitted. -/
structure NamespaceResourceUsage (α : Type) where
  name : String
  cpuCoresRequested : ℚ
  memoryGBRequested : ℚ
  podCount : ℕ
  cpuPercent : α
  memoryPercent : α
  idlePods : ℕ
  spotEligiblePods : ℕ
  wasteScore : ℚ
deriving DecidableEq, Repr

/-- `pkg/models/resources.go` `WeightedShare`: weighted average of CPU and
memory percentage as a fraction, `(CPUPercent + MemoryPercent)/2/100`. -/
def NamespaceResourceUsage.weightedShare (n : NamespaceResourceUsage ℚ) : ℚ :=
  (n.cpuPercent + n.memoryPercent) / 2 / 100

/-- `pkg/models/resources.go`: `NamespaceCostInfo`. -/
structure NamespaceCostInfo where
  name : String
  estimatedCost : CostRange
  cpuShare : ℚ
  memoryShare : ℚ
  weightedShare : ℚ
deriving DecidableEq, Repr

/-- `pkg/models/resources.go`: `OptimizationScenario`, restricted to its
computed numeric fields and fixed labels; `Description`, `Impact` and
`Actions` are `fmt.Sprintf` presentation strings and are omitted. -/
structure OptimizationScenario where
  name : String
  currentCost : CostRange
  afterCost : CostRange
  savings : CostRange
  effort : String
  risk : String
  timeline : String
deriving DecidableEq, Repr

/-- `pkg/models/resources.go`: `CostEstimate`. -/
structure CostEstimate where
  totalClusterCost : ℚ
  namespaceCosts : List NamespaceCostInfo
  optimizationScenarios : List OptimizationScenario
  totalSavingsPotential : CostRange
  method : String
  confidence : String
  assumptions : List String
  disclaimers : List String
deriving DecidableEq, Repr

/-- `costs.go` `calculateConfidence`, first adjustment block: the
`WeightedShare()`-based `else if` chain (+0.2 above 0.15, +0.1 above
0.05, −0.1 below 0.02). -/
def wsAdjust (ws : ℚ) : ℚ :=
  if ws > 0.15 then 0.2 else if ws > 0.05 then 0.1 else if ws < 0.02 then -0.1 else 0

/-- `costs.go` `calculateConfidence`, second adjustment block: the
`WasteScore`-based `else if` chain (−0.2 above 50, −0.1 above 30). -/
def wasteAdjust (w : ℚ) : ℚ :=
  if w > 50 then -0.2 else if w > 30 then -0.1 else 0

/-- `costs.go` `calculateConfidence`, third adjustment block: the
`PodCount`-based `else if` chain (+0.1 above 10 pods, −0.1 below 3). -/
def podAdjust (n : ℕ) : ℚ :=
  if n > 10 then 0.1 else if n < 3 then -0.1 else 0

/-- `costs.go` `calculateConfidence`, final clamp: the two sequential
`if` statements bounding the value to `[0.3, 0.9]`. -/
def confClamp (c : ℚ) : ℚ :=
  let c := if c < 0.3 then (0.3 : ℚ) else c
  if c > 0.9 then 0.9 else c

/-- `costs.go` `calculateConfidence`: confidence level starting at 0.5,
adjusted by the three (mutually independent) `else if` chains, then
clamped to `[0.3, 0.9]`.  The sequential `+=`/`-=` statements of the Go
method are the sum of the three adjustment functions. -/
def calculateConfidence (ns : NamespaceResourceUsage ℚ) : ℚ :=
  confClamp (0.5 + wsAdjust ns.weightedShare + wasteAdjust ns.wasteScore
    + podAdjust ns.podCount)

/-- `costs.go` `calculateCostRange`: low/best/high estimates around
`baseCost` with confidence-based uncertainty, a spot-discount potential
on the low end and a waste inflation on the high end.  The division
`SpotEligiblePods/PodCount` is guarded by `SpotEligiblePods > 0` in the
source; the analyzer only produces records with
`spotEligiblePods ≤ podCount`, so the denominator is then nonzero and
plain rational division is exact. -/
def calculateCostRange (baseCost : ℚ) (ns : NamespaceResourceUsage ℚ) :
    CostRange :=
  let best := baseCost
  let confidence := calculateConfidence ns
  let uncertainty := 1 - confidence
  let spotPotential : ℚ :=
    if ns.spotEligiblePods > 0 then
      ((ns.spotEligiblePods : ℚ) / (ns.podCount : ℚ)) * 0.7
    else 0
  let low := baseCost * (1 - spotPotential) * (1 - uncertainty * 0.5)
  let wasteFactor : ℚ :=
    if ns.wasteScore > 50 then 0.3 else if ns.wasteScore > 30 then 0.15 else 0
  let high := baseCost * (1 + wasteFactor) * (1 + uncertainty * 0.5)
  { low := low, best := best, high := high }

/-- `costs.go` `calculateNamespaceCosts`: allocates the cluster cost to
each namespace proportionally to its weighted share. -/
def calculateNamespaceCosts (totalCost : ℚ)
    (namespaces : List (NamespaceResourceUsage ℚ)) : List NamespaceCostInfo :=
  namespaces.map (fun ns =>
    let weightedShare := (ns.cpuPercent + ns.memoryPercent) / 2 / 100
    let baseCost := totalCost * weightedShare
    { name := ns.name
      estimatedCost := calculateCostRange baseCost ns
      cpuShare := ns.cpuPercent / 100
      memoryShare := ns.memoryPercent / 100
      weightedShare := weightedShare })

/-- `costs.go` `generateSpotScenario`, accumulation loop: total cost slice
of namespaces whose spot-eligible ratio exceeds 0.5 with at least two
spot-eligible pods (`nsCost * spotRatio` summed over qualifying
namespaces). -/
def spotEligibleCost (totalCost : ℚ)
    (namespaces : List (NamespaceResourceUsage ℚ)) : ℚ :=
  (namespaces.map (fun ns =>
    if ns.spotEligiblePods > 0 then
      let spotR := (ns.spotEligiblePods : ℚ) / (ns.podCount : ℚ)
      if spotR > 0.5 ∧ ns.spotEligiblePods ≥ 2 then
        totalCost * ((ns.cpuPercent + ns.memoryPercent) / 2 / 100) * spotR
      else 0
    else 0)).sum

/-- `costs.go` `generateSpotScenario`, threshold: $50 floor, scaled to 5%
of total cost with a $20 floor for clusters under $2000. -/
def spotMinThreshold (totalCost : ℚ) : ℚ :=
  if totalCost < 2000 then
    (if totalCost * 0.05 < 20 then 20 else totalCost * 0.05)
  else 50

/-- `costs.go` `generateSpotScenario`: emits the spot-migration scenario
when the eligible cost slice clears the threshold. -/
def generateSpotScenario (totalCost : ℚ)
    (namespaces : List (NamespaceResourceUsage ℚ)) :
    Option OptimizationScenario :=
  let c := spotEligibleCost totalCost namespaces
  if c < spotMinThreshold totalCost then none
  else some
    { name := "Migrate to Spot Instances"
      currentCost := { low := c * 0.9, best := c, high := c * 1.1 }
      afterCost := { low := c * 0.20, best := c * 0.30, high := c * 0.40 }
      savings := { low := c * 0.60, best := c * 0.70, high := c * 0.80 }
      effort := "Medium", risk := "Low", timeline := "1-2 weeks" }

/-- `costs.go` `generateIdleScenario`, accumulation loop: total allocated
cost of namespaces with waste score above 70 whose cost exceeds $20. -/
def idleCost (totalCost : ℚ)
    (namespaces : List (NamespaceResourceUsage ℚ)) : ℚ :=
  (namespaces.map (fun ns =>
    if ns.wasteScore > 70 then
      let nsCost := totalCost * ((ns.cpuPercent + ns.memoryPercent) / 2 / 100)
      if nsCost > 20 then nsCost else 0
    else 0)).sum

/-- `costs.go` `generateIdleScenario`, threshold: $30 floor, scaled to 3%
of total cost with a $15 floor for clusters under $2000. -/
def idleMinThreshold (totalCost : ℚ) : ℚ :=
  if totalCost < 2000 then
    (if totalCost * 0.03 < 15 then 15 else totalCost * 0.03)
  else 30

/-- `costs.go` `generateIdleScenario`: emits the idle-deletion scenario
when the idle cost slice clears the threshold. -/
def generateIdleScenario (totalCost : ℚ)
    (namespaces : List (NamespaceResourceUsage ℚ)) :
    Option OptimizationScenario :=
  let c := idleCost totalCost namespaces
  if c < idleMinThreshold totalCost then none
  else some
    { name := "Delete Idle Namespaces"
      currentCost := { low := c * 0.9, best := c, high := c * 1.1 }
      afterCost := { low := 0, best := 0, high := 0 }
      savings := { low := c * 0.9, best := c, high := c * 1.1 }
      effort := "Low", risk := "Low", timeline := "1 day" }

/-- `costs.go` `generateRightsizeScenario`, accumulation loop: total
allocated cost of namespaces with fewer than 5 pods averaging more than 2
CPU cores per pod. -/
def oversizedCost (totalCost : ℚ)
    (namespaces : List (NamespaceResourceUsage ℚ)) : ℚ :=
  (namespaces.map (fun ns =>
    if ns.podCount > 0 ∧ ns.podCount < 5 then
      let avgCPU := ns.cpuCoresRequested / (ns.podCount : ℚ)
      if avgCPU > 2.0 then
        totalCost * ((ns.cpuPercent + ns.memoryPercent) / 2 / 100)
      else 0
    else 0)).sum

/-- `costs.go` `generateRightsizeScenario`, threshold: $50 floor, scaled
to 5% of total cost with a $20 floor for clusters under $2000. -/
def rightsizeMinThreshold (totalCost : ℚ) : ℚ :=
  if totalCost < 2000 then
    (if totalCost * 0.05 < 20 then 20 else totalCost * 0.05)
  else 50

/-- `costs.go` `generateRightsizeScenario`: emits the right-sizing
scenario when the over-provisioned cost slice clears the threshold. -/
def generateRightsizeScenario (totalCost : ℚ)
    (namespaces : List (NamespaceResourceUsage ℚ)) :
    Option OptimizationScenario :=
  let c := oversizedCost totalCost namespaces
  if c < rightsizeMinThreshold totalCost then none
  else some
    { name := "Right-size Over-provisioned Workloads"
      currentCost := { low := c * 0.9, best := c, high := c * 1.1 }
      afterCost := { low := c * 0.35, best := c * 0.50, high := c * 0.65 }
      savings := { low := c * 0.40, best := c * 0.50, high := c * 0.60 }
      effort := "Medium", risk := "Medium", timeline := "2-3 weeks" }

/-- `costs.go` `generateHPAScenario`, candidate predicate: non-system
namespaces with 3–20 pods whose allocated cost exceeds $100. -/
def hpaCandidate (totalCost : ℚ) (ns : NamespaceResourceUsage ℚ) : Bool :=
  3 ≤ ns.podCount ∧ ns.podCount ≤ 20 ∧
  ns.name ≠ "kube-system" ∧ ns.name ≠ "istio-system" ∧
  totalCost * ns.weightedShare > 100

/-- `costs.go` `generateHPAScenario`, accumulation loop: total allocated
cost of the autoscaling candidates. -/
def hpaCandidateCost (totalCost : ℚ)
    (namespaces : List (NamespaceResourceUsage ℚ)) : ℚ :=
  (namespaces.map (fun ns =>
    if hpaCandidate totalCost ns then totalCost * ns.weightedShare else 0)).sum

/-- `costs.go` `generateHPAScenario`, threshold: $100 floor, scaled to 10%
of total cost with a $30 floor for clusters under $2000. -/
def hpaMinThreshold (totalCost : ℚ) : ℚ :=
  if totalCost < 2000 then
    (if totalCost * 0.10 < 30 then 30 else totalCost * 0.10)
  else 100

/-- `costs.go` `generateHPAScenario`: emits the autoscaling scenario when
the candidate cost clears the threshold and at least one candidate
namespace exists. -/
def generateHPAScenario (totalCost : ℚ)
    (namespaces : List (NamespaceResourceUsage ℚ)) :
    Option OptimizationScenario :=
  let c := hpaCandidateCost totalCost namespaces
  if c < hpaMinThreshold totalCost ∨
     (namespaces.filter (hpaCandidate totalCost)).length = 0 then none
  else some
    { name := "Add Horizontal Pod Autoscalers"
      currentCost := { low := c * 0.9, best := c, high := c * 1.1 }
      afterCost := { low := c * 0.65, best := c * 0.75, high := c * 0.85 }
      savings := { low := c * 0.15, best := c * 0.25, high := c * 0.35 }
      effort := "Medium", risk := "Low", timeline := "1-2 weeks" }

/-- `costs.go` `generateOptimizationScenarios`: appends the four optional
scenarios in their fixed order. -/
def generateOptimizationScenarios (totalCost : ℚ)
    (namespaces : List (NamespaceResourceUsage ℚ)) :
    List OptimizationScenario :=
  [generateSpotScenario totalCost namespaces,
   generateIdleScenario totalCost namespaces,
   generateRightsizeScenario totalCost namespaces,
   generateHPAScenario totalCost namespaces].filterMap id

/-- `costs.go` `calculateTotalSavings`: componentwise sum of the emitted
scenarios' savings ranges. -/
def calculateTotalSavings (scenarios : List OptimizationScenario) :
    CostRange where
  low := (scenarios.map (fun s => s.savings.low)).sum
  best := (scenarios.map (fun s => s.savings.best)).sum
  high := (scenarios.map (fun s => s.savings.high)).sum

/-- `costs.go` `generateAssumptions`: the literal assumption strings. -/
def generateAssumptions : List String :=
  [ "Cost allocation based on CPU + Memory resource requests (not actual usage)",
    "Does NOT include: storage costs, networking egress, load balancers, public IPs",
    "Spot instance savings assume 70% discount vs on-demand",
    "Assumes proportional sharing of node costs across pods",
    "Cluster cost provided by user - not validated against actual Azure billing" ]

/-- `costs.go` `generateDisclaimers`: the literal disclaimer strings. -/
def generateDisclaimers : List String :=
  [ "⚠️  These are ESTIMATES with ranges - not exact costs",
    "⚠️  Actual costs depend on: VM sizes, reserved instances, spot pricing, node utilization",
    "⚠️  Use Azure Cost Management for actual billing data",
    "⚠️  Optimization savings are potential - results may vary" ]

/-- `costs.go` `AnalyzeCosts`: the cost-analysis entry point.  Returns
`none` exactly when the Go method returns its
"total cluster cost must be greater than 0" error; the analyzer's
namespace list (the only part of the resource analysis the computation
reads) is passed explicitly. -/
def AnalyzeCosts (totalClusterCost : ℚ)
    (namespaces : List (NamespaceResourceUsage ℚ)) : Option CostEstimate :=
  if totalClusterCost ≤ 0 then none
  else
    let scenarios := generateOptimizationScenarios totalClusterCost namespaces
    some
      { totalClusterCost := totalClusterCost
        namespaceCosts := calculateNamespaceCosts totalClusterCost namespaces
        optimizationScenarios := scenarios
        totalSavingsPotential := calculateTotalSavings scenarios
        method := "request_proportional"
        confidence := "medium"
        assumptions := generateAssumptions
        disclaimers := generateDisclaimers }

/-- Input fact for one pod, as the resource analyzer consumes it: the
pod's namespace, its summed container resource requests
(`getPodResourceRequests`), and the two scanner predicates `isPodIdle`
and `isSpotEligible` evaluated on the pod (they depend on creation
timestamps, restart counts, volumes and owner references — external
facts the analyzer only branches on). -/
structure PodFact where
  ns : String
  cpu : ℚ
  mem : ℚ
  idle : Bool
  spotEligible : Bool
deriving DecidableEq, Repr

/-- `pkg/models/resources.go`: `ResourceCapacity` — total allocatable CPU
cores and memory GB (`getClusterCapacity` sums these over all nodes; the
summed capacity is taken as input here). -/
structure ResourceCapacity where
  cpu : ℚ
  memory : ℚ
deriving DecidableEq, Repr

/-- `resources.go` `calculateWasteScore`: 0–100 waste heuristic from the
namespace aggregate (idle ratio up to 40 points, likely over-provisioning
30 points, spot-eligible ratio up to 30 points).  Its divisions are by
`PodCount`; every analyzer-built namespace aggregates at least one pod,
so the denominator is nonzero and plain rational division is exact. -/
def calculateWasteScore (podCount idlePods spotPods : ℕ)
    (cpuCoresRequested : ℚ) : ℚ :=
  let score : ℚ := 0
  let score :=
    if idlePods > 0 then score + ((idlePods : ℚ) / (podCount : ℚ)) * 40
    else score
  let score :=
    if podCount > 0 ∧ podCount < 5 then
      (if cpuCoresRequested / (podCount : ℚ) > 2.0 then score + 30 else score)
    else score
  if spotPods > 0 then score + ((spotPods : ℚ) / (podCount : ℚ)) * 30
  else score

/-- The pods of one namespace (the group the Go `namespaceMap` builds for
a key). -/
def podsIn (pods : List PodFact) (n : String) : List PodFact :=
  pods.filter (fun p => p.ns = n)

/-- The distinct namespace names occurring among the pods (the key set of
the Go `namespaceMap`), in first-occurrence order. -/
def nsNames (pods : List PodFact) : List String :=
  (pods.map (fun p => p.ns)).dedup

/-- `resources.go` `AnalyzeClusterResources`, per-namespace work: the
aggregation loop (pod count, summed requests, idle and spot-eligible
counts) followed by the percentage and waste-score computation.  The
percentages `(requested / capacity) * 100` are `fdiv` divisions: `none`
when the corresponding capacity is zero (Go produces a nonfinite float
there and keeps going — there is no guard). -/
def buildNamespace (cap : ResourceCapacity) (pods : List PodFact)
    (n : String) : NamespaceResourceUsage (Option ℚ) :=
  let ps := podsIn pods n
  let podCount := ps.length
  let cpuReq := (ps.map (fun p => p.cpu)).sum
  let memReq := (ps.map (fun p => p.mem)).sum
  let idlePods := (ps.filter (fun p => p.idle)).length
  let spotPods := (ps.filter (fun p => p.spotEligible)).length
  { name := n
    cpuCoresRequested := cpuReq
    memoryGBRequested := memReq
    podCount := podCount
    cpuPercent := (fdiv cpuReq cap.cpu).map (fun q => q * 100)
    memoryPercent := (fdiv memReq cap.memory).map (fun q => q * 100)
    idlePods := idlePods
    spotEligiblePods := spotPods
    wasteScore := calculateWasteScore podCount idlePods spotPods cpuReq }

/-- `pkg/models/resources.go`: `ClusterResourceAnalysis`, restricted to
the fields the engine computes and the cost analyzer reads; `Timestamp`
and the `Optimizations` recommendations are omitted (presentation data;
no claim concerns them). -/
structure ClusterResourceAnalysis where
  totalCPUCores : ℚ
  totalMemoryGB : ℚ
  totalCPURequested : ℚ
  totalMemoryRequested : ℚ
  cpuUtilization : Option ℚ
  memoryUtilization : Option ℚ
  namespaces : List (NamespaceResourceUsage (Option ℚ))
deriving DecidableEq, Repr

/-- `resources.go` `AnalyzeClusterResources`: groups the pods by
namespace, computes each namespace's percentages and waste score and the
cluster-wide totals and utilization percentages, and returns the
analysis unconditionally — the only error returns in the Go method are
Kubernetes API failures while fetching the inputs, which are already
materialized here as `cap` and `pods`.  There is no capacity-zero guard.
(`sortNamespacesByUsage` then permutes the namespace slice for
presentation; the embedding keeps first-occurrence order — no claim
depends on the order.) -/
def analyzeClusterResources (cap : ResourceCapacity) (pods : List PodFact) :
    ClusterResourceAnalysis :=
  let nss := (nsNames pods).map (buildNamespace cap pods)
  let totalCPURequested := (nss.map (fun ns => ns.cpuCoresRequested)).sum
  let totalMemoryRequested := (nss.map (fun ns => ns.memoryGBRequested)).sum
  { totalCPUCores := cap.cpu
    totalMemoryGB := cap.memory
    totalCPURequested := totalCPURequested
    totalMemoryRequested := totalMemoryRequested
    cpuUtilization := (fdiv totalCPURequested cap.cpu).map (fun q => q * 100)
    memoryUtilization := (fdiv totalMemoryRequested cap.memory).map (fun q => q * 100)
    namespaces := nss }

/-- The finite-valued counterpart of `buildNamespace`: the same aggregate
with the percentages written as plain rational divisions.  For positive
capacity this is exactly the value `buildNamespace` computes (see
`buildNamespace_pos`). -/
def buildNamespaceQ (cap : ResourceCapacity) (pods : List PodFact)
    (n : String) : NamespaceResourceUsage ℚ :=
  let ps := podsIn pods n
  let podCount := ps.length
  let cpuReq := (ps.map (fun p => p.cpu)).sum
  let memReq := (ps.map (fun p => p.mem)).sum
  let idlePods := (ps.filter (fun p => p.idle)).length
  let spotPods := (ps.filter (fun p => p.spotEligible)).length
  { name := n
    cpuCoresRequested := cpuReq
    memoryGBRequested := memReq
    podCount := podCount
    cpuPercent := cpuReq / cap.cpu * 100
    memoryPercent := memReq / cap.memory * 100
    idlePods := idlePods
    spotEligiblePods := spotPods
    wasteScore := calculateWasteScore podCount idlePods spotPods cpuReq }

/-- The namespace list of the resource analysis in its finite view — the
input handed to the cost analyzer. -/
def finiteNamespaces (cap : ResourceCapacity) (pods : List PodFact) :
    List (NamespaceResourceUsage ℚ) :=
  (nsNames pods).map (buildNamespaceQ cap pods)

/-- Upcast a finite namespace record to the `Option ℚ` view. -/
def NamespaceResourceUsage.toOptionView (n : NamespaceResourceUsage ℚ) :
    NamespaceResourceUsage (Option ℚ) :=
  { n with cpuPercent := some n.cpuPercent, memoryPercent := some n.memoryPercent }

/-- For positive capacity, the analyzer's per-namespace record is the
finite record: the `fdiv` percentages are `some` of the plain rational
divisions. -/
theorem buildNamespace_pos (cap : ResourceCapacity) (pods : List PodFact)
    (n : String) (hc : cap.cpu ≠ 0) (hm : cap.memory ≠ 0) :
    buildNamespace cap pods n = (buildNamespaceQ cap pods n).toOptionView := by
  simp [buildNamespace, buildNamespaceQ, NamespaceResourceUsage.toOptionView,
    fdiv, hc, hm]

/-- For positive capacity, the analyzer's namespace list is exactly the
finite namespace list (upcast field-by-field): reading the analyzer
output as plain rationals, as the cost layer does, is exact. -/
theorem analyzeClusterResources_namespaces_pos (cap : ResourceCapacity)
    (pods : List PodFact) (hc : cap.cpu ≠ 0) (hm : cap.memory ≠ 0) :
    (analyzeClusterResources cap pods).namespaces =
      (finiteNamespaces cap pods).map NamespaceResourceUsage.toOptionView := by
  simp only [analyzeClusterResources, finiteNamespaces, List.map_map]
  exact List.map_congr_left (fun n _ => buildNamespace_pos cap pods n hc hm)

theorem confClamp_bounds (c : ℚ) : 0.3 ≤ confClamp c ∧ confClamp c ≤ 0.9 := by
  simp only [confClamp]
  split_ifs <;> constructor <;> linarith

theorem calculateConfidence_bounds (ns : NamespaceResourceUsage ℚ) :
    0.3 ≤ calculateConfidence ns ∧ calculateConfidence ns ≤ 0.9 :=
  confClamp_bounds _

theorem calculateCostRange_mono (base : ℚ) (ns : NamespaceResourceUsage ℚ)
    (hb : 0 ≤ base) (hsp : ns.spotEligiblePods ≤ ns.podCount) :
    (calculateCostRange base ns).Mono := by
  obtain ⟨hc1, hc2⟩ := calculateConfidence_bounds ns
  have hsp0 : 0 ≤ (if ns.spotEligiblePods > 0 then
      ((ns.spotEligiblePods : ℚ) / (ns.podCount : ℚ)) * 0.7 else 0) ∧
      (if ns.spotEligiblePods > 0 then
      ((ns.spotEligiblePods : ℚ) / (ns.podCount : ℚ)) * 0.7 else 0) ≤ 0.7 := by
    split_ifs with h
    · have hpc : (0 : ℚ) < (ns.podCount : ℚ) := by
        have : 0 < ns.podCount := lt_of_lt_of_le h hsp
        exact_mod_cast this
      have hr1 : (ns.spotEligiblePods : ℚ) / (ns.podCount : ℚ) ≤ 1 := by
        rw [div_le_one hpc]; exact_mod_cast hsp
      have hr0 : (0 : ℚ) ≤ (ns.spotEligiblePods : ℚ) / (ns.podCount : ℚ) := by
        positivity
      constructor <;> nlinarith
    · norm_num
  have hwf : 0 ≤ (if ns.wasteScore > 50 then (0.3 : ℚ)
      else if ns.wasteScore > 30 then 0.15 else 0) := by
    split_ifs <;> norm_num
  obtain ⟨hsp1, hsp2⟩ := hsp0
  simp only [calculateCostRange, CostRange.Mono]
  set c := calculateConfidence ns
  set sp : ℚ := if ns.spotEligiblePods > 0 then
      ((ns.spotEligiblePods : ℚ) / (ns.podCount : ℚ)) * 0.7 else 0
  set wf : ℚ := if ns.wasteScore > 50 then (0.3 : ℚ)
      else if ns.wasteScore > 30 then 0.15 else 0
  have h1 : (0 : ℚ) ≤ 1 - sp := by linarith
  have h2 : (0 : ℚ) ≤ 1 - (1 - c) * 0.5 := by linarith
  refine ⟨?_, ?_, ?_⟩
  · exact mul_nonneg (mul_nonneg hb h1) h2
  · have h3 : (1 - sp) * (1 - (1 - c) * 0.5) ≤ 1 := by nlinarith
    nlinarith [mul_le_mul_of_nonneg_left h3 hb]
  · have h4 : (1 : ℚ) ≤ (1 + wf) * (1 + (1 - c) * 0.5) := by nlinarith
    nlinarith [mul_le_mul_of_nonneg_left h4 hb]

theorem fdiv_eq_none_iff (x y : ℚ) : fdiv x y = none ↔ y = 0 := by
  unfold fdiv
  split_ifs with h <;> simp [h]

theorem mem_ite_singleton {α : Type} {c : Prop} [Decidable c] {x a : α}
    (h : a ∈ (if c then [x] else [])) : a = x := by
  split_ifs at h
  · simpa using h
  · simp at h

/-- C1 counterexample: with an empty category list (a clean audit) the
remediation planner returns a plan — no error of any kind — whose
`estimated_cost` is 0 and whose `roi` and `payback_months` are the
nonfinite results of zero-denominator divisions (`NaN`, since both are
`0/0` in the Go code).  This contradicts the claim that the engine fails
with `UndefinedROI`/`UndefinedPayback` and never produces `NaN`/`Inf`. -/
theorem c1_counterexample :
    (calculateRemediationPlan DefaultConfig []).estimatedCost = 0 ∧
    (calculateRemediationPlan DefaultConfig []).roi = none ∧
    (calculateRemediationPlan DefaultConfig []).paybackMonths = none := by
  refine ⟨?_, ?_, ?_⟩ <;>
    simp [calculateRemediationPlan, remediationHours, calculateTotalRisk, fdiv]

/-- C1 (amended): `calculateRemediationPlan` has no error path — it
always returns a plan.  Its `roi` is the bare division
`risk_reduction / estimated_cost`, nonfinite exactly when
`estimated_cost = 0`, and its `payback_months` is the bare division
`estimated_cost / (risk_reduction / 12)`, nonfinite exactly when
`risk_reduction = 0`; no `UndefinedROI`/`UndefinedPayback` error exists. -/
theorem c1_claim (cfg : RiskCostConfig) (cats : List RiskCategory) :
    ((calculateRemediationPlan cfg cats).roi = none ↔
      (calculateRemediationPlan cfg cats).estimatedCost = 0) ∧
    ((calculateRemediationPlan cfg cats).paybackMonths = none ↔
      (calculateRemediationPlan cfg cats).riskReduction = 0) := by
  simp only [calculateRemediationPlan]
  constructor
  · exact fdiv_eq_none_iff _ _
  · rw [fdiv_eq_none_iff]
    constructor
    · intro h
      have h12 : (12 : ℚ) ≠ 0 := by norm_num
      field_simp at h
      exact h
    · intro h
      rw [h]
      norm_num

theorem c1_witness :
    (calculateRemediationPlan DefaultConfig []).roi = none :=
  (c1_claim DefaultConfig []).1.mpr
    (by simp [calculateRemediationPlan, remediationHours])

/-- Spec-side formula (C8): grand total of remediation hours,
`sum of count * hours_per_issue` over all categories. -/
def totalHoursSpec (cats : List RiskCategory) : ℚ :=
  (cats.map (fun c => (c.count : ℚ) * hoursPerIssue c.severity)).sum

/-- Spec-side formula (C8): hours accumulated into one severity bucket,
`sum of count * hrs` over the categories of that severity. -/
def severityHoursSpec (sev : String) (hrs : ℚ) (cats : List RiskCategory) : ℚ :=
  ((cats.filter (fun c => c.severity = sev)).map (fun c => (c.count : ℚ) * hrs)).sum

theorem remediation_fold_aux (cats : List RiskCategory) :
    ∀ a b c d : ℚ,
    cats.foldl
      (fun acc cat =>
        let h := hoursPerIssue cat.severity
        ( acc.1 + (cat.count : ℚ) * h,
          if cat.severity = "critical" then acc.2.1 + (cat.count : ℚ) * h else acc.2.1,
          if cat.severity = "high" then acc.2.2.1 + (cat.count : ℚ) * h else acc.2.2.1,
          if cat.severity = "medium" then acc.2.2.2 + (cat.count : ℚ) * h else acc.2.2.2 ))
      (a, b, c, d) =
      (a + totalHoursSpec cats, b + severityHoursSpec "critical" 2 cats,
       c + severityHoursSpec "high" 1 cats,
       d + severityHoursSpec "medium" (1/2) cats) := by
  induction cats with
  | nil => intro a b c d; simp [totalHoursSpec, severityHoursSpec]
  | cons cat t ih =>
    intro a b c d
    simp only [List.foldl_cons]
    rw [ih]
    by_cases h1 : cat.severity = "critical"
    · simp [Prod.mk.injEq, totalHoursSpec, severityHoursSpec, List.filter_cons,
        h1, hoursPerIssue]
      refine ⟨by ring, by ring⟩
    · by_cases h2 : cat.severity = "high"
      · simp [Prod.mk.injEq, totalHoursSpec, severityHoursSpec, List.filter_cons,
          h2, hoursPerIssue]
        refine ⟨by ring, by ring⟩
      · by_cases h3 : cat.severity = "medium"
        · simp [Prod.mk.injEq, totalHoursSpec, severityHoursSpec, List.filter_cons,
            h3, hoursPerIssue]
          refine ⟨by ring, by ring⟩
        · simp [Prod.mk.injEq, totalHoursSpec, severityHoursSpec, List.filter_cons,
            h1, h2, h3, hoursPerIssue]

theorem remediationHours_spec (cats : List RiskCategory) :
    remediationHours cats =
      (totalHoursSpec cats, severityHoursSpec "critical" 2 cats,
       severityHoursSpec "high" 1 cats,
       severityHoursSpec "medium" (1/2) cats) := by
  unfold remediationHours
  rw [remediation_fold_aux]
  simp

/-- C8: the remediation plan uses fixed per-issue hours by severity
(critical = 2.0h, high = 1.0h, medium = 0.5h, via `hoursPerIssue`),
accumulates `count * hours_per_issue` into severity buckets and a grand
total, sets `estimated_cost = total_hours * engineer_hourly_rate`, and
always emits exactly three phases (critical/high/medium) — also when a
phase has zero hours — with hours and cost per bucket and the fixed
priority labels "IMMEDIATE", "THIS WEEK", "THIS MONTH". -/
theorem c8_claim (cfg : RiskCostConfig) (cats : List RiskCategory) :
    (calculateRemediationPlan cfg cats).totalHours = totalHoursSpec cats ∧
    (calculateRemediationPlan cfg cats).criticalHours =
      severityHoursSpec "critical" 2 cats ∧
    (calculateRemediationPlan cfg cats).highHours =
      severityHoursSpec "high" 1 cats ∧
    (calculateRemediationPlan cfg cats).mediumHours =
      severityHoursSpec "medium" (1/2) cats ∧
    (calculateRemediationPlan cfg cats).estimatedCost =
      totalHoursSpec cats * cfg.engineerHourlyRate ∧
    (calculateRemediationPlan cfg cats).phases.length = 3 ∧
    (calculateRemediationPlan cfg cats).phases.map (fun ph => ph.priority) =
      ["IMMEDIATE", "THIS WEEK", "THIS MONTH"] ∧
    (calculateRemediationPlan cfg cats).phases.map (fun ph => (ph.hours, ph.cost)) =
      [(severityHoursSpec "critical" 2 cats,
        severityHoursSpec "critical" 2 cats * cfg.engineerHourlyRate),
       (severityHoursSpec "high" 1 cats,
        severityHoursSpec "high" 1 cats * cfg.engineerHourlyRate),
       (severityHoursSpec "medium" (1/2) cats,
        severityHoursSpec "medium" (1/2) cats * cfg.engineerHourlyRate)] := by
  simp [calculateRemediationPlan, remediationHours_spec]

/-- C4 counterexample: with the pharma profile and a single
running-as-root finding (a *high*-severity category), the emitted
exposure is `low = 1 * 15000 * (0.10 * 0.3) = 450` and
`high = 1 * 15000 * (0.10 * 1.5) = 2250` — not the
`low = count * unit_cost * (probability * 0.5) = 750` and
`high = count * unit_cost * (probability * 2.0) = 3000` the claim
prescribes for every critical-or-high category. -/
theorem c4_counterexample :
    calculateRiskCategories PharmaConfig
      { runningAsRoot := 1, privilegedContainers := 0, hostNetwork := 0,
        hostPID := 0, hostIPC := 0, hostPathVolumes := 0,
        defaultServiceAccount := 0, missingResourceLimits := 0,
        missingProbes := 0, addedCapabilities := 0, privilegeEscalation := 0,
        writableFilesystem := 0 } =
      [{ name := "Containers Running as Root", severity := "high", count := 1,
         riskExposure := { low := 450, best := 1500, high := 2250 } }] ∧
    (1 : ℚ) * 15000 * (0.10 * 0.5) ≠ 450 ∧
    (1 : ℚ) * 15000 * (0.10 * 2.0) ≠ 2250 := by
  refine ⟨?_, by norm_num, by norm_num⟩
  norm_num [calculateRiskCategories, PharmaConfig, RiskCategory.mk.injEq,
    CostRange.mk.injEq]

/-- C4 (amended): the critical categories (privileged containers,
hostPath volumes, host PID) use the band multipliers 0.5×/1×/2× of
`count * unit_cost * probability`; the high-severity categories use
narrower bands — running-as-root 0.3×/1×/1.5× and host-network
0.5×/1×/1.5× — and the medium categories use 0.5×/1×/1.5×. -/
theorem c4_claim (cfg : RiskCostConfig) (risks : SecurityRisks) :
    ∀ cat ∈ calculateRiskCategories cfg risks,
      (cat.severity = "critical" →
        cat.riskExposure.low = 0.5 * cat.riskExposure.best ∧
        cat.riskExposure.high = 2 * cat.riskExposure.best) ∧
      (cat.name = "Containers Running as Root" →
        cat.riskExposure.low = 0.3 * cat.riskExposure.best ∧
        cat.riskExposure.high = 1.5 * cat.riskExposure.best) ∧
      (cat.name = "Host Network Usage" →
        cat.riskExposure.low = 0.5 * cat.riskExposure.best ∧
        cat.riskExposure.high = 1.5 * cat.riskExposure.best) ∧
      (cat.severity = "medium" →
        cat.riskExposure.low = 0.5 * cat.riskExposure.best ∧
        cat.riskExposure.high = 1.5 * cat.riskExposure.best) := by
  intro cat hcat
  simp only [calculateRiskCategories, List.append_assoc, List.mem_append] at hcat
  rcases hcat with h|h|h|h|h|h|h <;> obtain rfl := mem_ite_singleton h <;>
    refine ⟨?_, ?_, ?_, ?_⟩ <;> intro hx <;> simp at hx <;>
      exact ⟨by ring, by ring⟩

theorem c4_witness :
    (240 : ℚ) = 0.3 * 800 ∧ (1200 : ℚ) = 1.5 * 800 := by
  have hmem :
      ({ name := "Containers Running as Root", severity := "high", count := 1,
         riskExposure := { low := 240, best := 800, high := 1200 } } : RiskCategory) ∈
        calculateRiskCategories DefaultConfig
          { runningAsRoot := 1, privilegedContainers := 0, hostNetwork := 0,
            hostPID := 0, hostIPC := 0, hostPathVolumes := 0,
            defaultServiceAccount := 0, missingResourceLimits := 0,
            missingProbes := 0, addedCapabilities := 0,
            privilegeEscalation := 0, writableFilesystem := 0 } := by
    norm_num [calculateRiskCategories, DefaultConfig, RiskCategory.mk.injEq,
      CostRange.mk.injEq]
  exact (c4_claim DefaultConfig _ _ hmem).2.1 rfl

/-- C9 counterexample: `GetConfigForIndustry` is case-sensitive.  The
claim says the aliases are case-insensitive (so "Healthcare" should
resolve to the pharma preset), but the Go `switch` compares strings
exactly: "Healthcare" falls through to the generic preset, which is a
different configuration from the pharma one. -/
theorem c9_counterexample :
    GetConfigForIndustry "Healthcare" = DefaultConfig ∧
    DefaultConfig ≠ PharmaConfig := by
  constructor
  · simp [GetConfigForIndustry]
  · intro h
    have := congrArg RiskCostConfig.industry h
    simp [DefaultConfig, PharmaConfig] at this

/-- C9 (amended): the resolved profile is always one of the four presets;
the documented alias strings select their preset when matched exactly
(lowercase as written in the `switch`); every other selector — including
any other casing of an alias — falls back to the generic preset.  The
selection is case-sensitive, not case-insensitive. -/
theorem c9_claim (s : String) :
    (GetConfigForIndustry s = DefaultConfig ∨
     GetConfigForIndustry s = PharmaConfig ∨
     GetConfigForIndustry s = FintechConfig ∨
     GetConfigForIndustry s = StartupConfig) ∧
    (s = "pharma" ∨ s = "pharmaceutical" ∨ s = "healthcare" ∨ s = "medical" →
      GetConfigForIndustry s = PharmaConfig) ∧
    (s = "fintech" ∨ s = "finance" ∨ s = "banking" ∨ s = "payment" →
      GetConfigForIndustry s = FintechConfig) ∧
    (s = "startup" ∨ s = "early-stage" →
      GetConfigForIndustry s = StartupConfig) ∧
    (¬(s = "pharma" ∨ s = "pharmaceutical" ∨ s = "healthcare" ∨ s = "medical") →
     ¬(s = "fintech" ∨ s = "finance" ∨ s = "banking" ∨ s = "payment") →
     ¬(s = "startup" ∨ s = "early-stage") →
      GetConfigForIndustry s = DefaultConfig) := by
  unfold GetConfigForIndustry
  split_ifs with h1 h2 h3 <;>
    refine ⟨by tauto, ?_, ?_, ?_, ?_⟩ <;> intro hx <;> try intro hy <;> try intro hz
  all_goals first
    | rfl
    | tauto
    | (rcases hx with rfl|rfl|rfl|rfl <;> simp_all)
    | (rcases hx with rfl|rfl <;> simp_all)

theorem c9_witness : GetConfigForIndustry "Foo" = DefaultConfig :=
  (c9_claim "Foo").2.2.2.2 (by simp) (by simp) (by simp)

/-- C10: the risk-cost analysis never reads the hostIPC,
added-capabilities or privilege-escalation counts.  Two audits that agree
on the security score and on all other counts produce identical risk
categories, total exposure, remediation plan and priority
recommendations, whatever those three counts are. -/
theorem c10_claim (cfg : RiskCostConfig) (a1 a2 : SecurityAudit)
    (hscore : a1.securityScore = a2.securityScore)
    (h1 : a1.risks.runningAsRoot = a2.risks.runningAsRoot)
    (h2 : a1.risks.privilegedContainers = a2.risks.privilegedContainers)
    (h3 : a1.risks.hostNetwork = a2.risks.hostNetwork)
    (h4 : a1.risks.hostPID = a2.risks.hostPID)
    (h5 : a1.risks.hostPathVolumes = a2.risks.hostPathVolumes)
    (h6 : a1.risks.defaultServiceAccount = a2.risks.defaultServiceAccount)
    (h7 : a1.risks.missingResourceLimits = a2.risks.missingResourceLimits)
    (h8 : a1.risks.missingProbes = a2.risks.missingProbes)
    (h9 : a1.risks.writableFilesystem = a2.risks.writableFilesystem)
    (h10 : a1.totalPodsAudited = a2.totalPodsAudited) :
    CalculateRiskCost cfg a1 = CalculateRiskCost cfg a2 := by
  have hcats : calculateRiskCategories cfg a1.risks =
      calculateRiskCategories cfg a2.risks := by
    unfold calculateRiskCategories
    rw [h1, h2, h3, h4, h5, h6, h7]
  unfold CalculateRiskCost
  rw [hcats, hscore]

theorem c10_witness :
    CalculateRiskCost DefaultConfig
      { totalPodsAudited := 5, securityScore := 70,
        risks :=
          { runningAsRoot := 1, privilegedContainers := 2, hostNetwork := 0,
            hostPID := 0, hostIPC := 0, hostPathVolumes := 0,
            defaultServiceAccount := 0, missingResourceLimits := 3,
            missingProbes := 0, addedCapabilities := 0,
            privilegeEscalation := 0, writableFilesystem := 0 } } =
    CalculateRiskCost DefaultConfig
      { totalPodsAudited := 5, securityScore := 70,
        risks :=
          { runningAsRoot := 1, privilegedContainers := 2, hostNetwork := 0,
            hostPID := 0, hostIPC := 9, hostPathVolumes := 0,
            defaultServiceAccount := 0, missingResourceLimits := 3,
            missingProbes := 0, addedCapabilities := 7,
            privilegeEscalation := 4, writableFilesystem := 0 } } :=
  c10_claim DefaultConfig _ _ rfl rfl rfl rfl rfl rfl rfl rfl rfl rfl rfl

theorem confClamp_eq (x : ℚ) : confClamp x = min 0.9 (max 0.3 x) := by
  simp only [confClamp]
  split_ifs <;> simp [min_def, max_def] <;> split_ifs <;> linarith

/-- Spec-side formula (C7): the confidence score as the spec words it —
start at 0.5; +0.2 if weighted_share > 0.15 else +0.1 if > 0.05 else
−0.1 if < 0.02; −0.2 if waste_score > 50 else −0.1 if > 30; +0.1 if
pod_count > 10 else −0.1 if < 3; clamp the result to [0.3, 0.9]. -/
def confidenceSpec (ns : NamespaceResourceUsage ℚ) : ℚ :=
  let c0 : ℚ := 0.5
  let c1 :=
    if ns.weightedShare > 0.15 then c0 + 0.2
    else if ns.weightedShare > 0.05 then c0 + 0.1
    else if ns.weightedShare < 0.02 then c0 - 0.1
    else c0
  let c2 :=
    if ns.wasteScore > 50 then c1 - 0.2
    else if ns.wasteScore > 30 then c1 - 0.1
    else c1
  let c3 :=
    if ns.podCount > 10 then c2 + 0.1
    else if ns.podCount < 3 then c2 - 0.1
    else c2
  min 0.9 (max 0.3 c3)

/-- C7: the confidence score `calculateCostRange` uses is exactly the
adjustment scheme the spec states: 0.5 plus the weighted-share, waste
and pod-count adjustments, clamped to [0.3, 0.9]. -/
theorem c7_claim (ns : NamespaceResourceUsage ℚ) :
    calculateConfidence ns = confidenceSpec ns := by
  unfold calculateConfidence
  rw [confClamp_eq]
  simp only [confidenceSpec, wsAdjust, wasteAdjust, podAdjust]
  congr 1
  congr 1
  split_ifs <;> ring

/-- C3 counterexample: with zero cluster capacity the resource analyzer
does not fail — it returns an analysis whose per-namespace CPU/memory
percentages and cluster utilization are the nonfinite results of
dividing by the zero capacity (`none` in the embedding); no
`DivisionByZero` error exists in the code. -/
theorem c3_counterexample :
    ((analyzeClusterResources { cpu := 0, memory := 0 }
        [{ ns := "app", cpu := 1, mem := 1, idle := false,
           spotEligible := false }]).namespaces.map
      (fun n => (n.cpuPercent, n.memoryPercent))) = [(none, none)] ∧
    (analyzeClusterResources { cpu := 0, memory := 0 }
        [{ ns := "app", cpu := 1, mem := 1, idle := false,
           spotEligible := false }]).cpuUtilization = none := by
  constructor <;>
    simp [analyzeClusterResources, nsNames, buildNamespace, podsIn, fdiv]

/-- C3 (amended): `AnalyzeClusterResources` has no capacity guard and no
`DivisionByZero` error path.  With zero total CPU it still returns an
analysis in which every namespace's CPU percentage and the cluster CPU
utilization are nonfinite zero-denominator divisions rather than an
error, and with zero total memory the same holds for every namespace's
memory percentage and the cluster memory utilization. -/
theorem c3_claim (cap : ResourceCapacity) (pods : List PodFact) :
    (cap.cpu = 0 →
      (∀ ns ∈ (analyzeClusterResources cap pods).namespaces,
        ns.cpuPercent = none) ∧
      (analyzeClusterResources cap pods).cpuUtilization = none) ∧
    (cap.memory = 0 →
      (∀ ns ∈ (analyzeClusterResources cap pods).namespaces,
        ns.memoryPercent = none) ∧
      (analyzeClusterResources cap pods).memoryUtilization = none) := by
  constructor
  · intro hc
    constructor
    · intro ns hns
      simp only [analyzeClusterResources, List.mem_map] at hns
      obtain ⟨n, _, rfl⟩ := hns
      simp [buildNamespace, fdiv, hc]
    · simp [analyzeClusterResources, fdiv, hc]
  · intro hm
    constructor
    · intro ns hns
      simp only [analyzeClusterResources, List.mem_map] at hns
      obtain ⟨n, _, rfl⟩ := hns
      simp [buildNamespace, fdiv, hm]
    · simp [analyzeClusterResources, fdiv, hm]

theorem c3_witness :
    ((∀ ns ∈ (analyzeClusterResources { cpu := 0, memory := 5 }
        [{ ns := "app", cpu := 2, mem := 1, idle := false,
           spotEligible := false }]).namespaces, ns.cpuPercent = none) ∧
     (analyzeClusterResources { cpu := 0, memory := 5 }
        [{ ns := "app", cpu := 2, mem := 1, idle := false,
           spotEligible := false }]).cpuUtilization = none) ∧
    ((∀ ns ∈ (analyzeClusterResources { cpu := 5, memory := 0 }
        [{ ns := "app", cpu := 2, mem := 1, idle := false,
           spotEligible := false }]).namespaces, ns.memoryPercent = none) ∧
     (analyzeClusterResources { cpu := 5, memory := 0 }
        [{ ns := "app", cpu := 2, mem := 1, idle := false,
           spotEligible := false }]).memoryUtilization = none) :=
  ⟨(c3_claim { cpu := 0, memory := 5 } _).1 rfl,
   (c3_claim { cpu := 5, memory := 0 } _).2 rfl⟩

theorem list_sum_map_add {α : Type} (l : List α) (f g : α → ℚ) :
    (l.map (fun x => f x + g x)).sum = (l.map f).sum + (l.map g).sum := by
  induction l with
  | nil => simp
  | cons a t ih => simp [ih]; ring

theorem sum_filter_split (l : List PodFact) (P : PodFact → Bool)
    (f : PodFact → ℚ) :
    ((l.filter P).map f).sum + ((l.filter (fun p => !(P p))).map f).sum =
      (l.map f).sum := by
  induction l with
  | nil => simp
  | cons a t ih =>
    by_cases h : P a <;> simp [List.filter_cons, h, ← ih] <;> ring

theorem sum_over_groups (f : PodFact → ℚ) :
    ∀ (names : List String) (l : List PodFact), names.Nodup →
      (∀ p ∈ l, p.ns ∈ names) →
      (names.map (fun n => ((l.filter (fun p => p.ns = n)).map f).sum)).sum =
        (l.map f).sum := by
  intro names
  induction names with
  | nil =>
    intro l _ hall
    have hl : l = [] := by
      cases l with
      | nil => rfl
      | cons p t => exact absurd (hall p (by simp)) (by simp)
    subst hl; simp
  | cons n rest ih =>
    intro l hnd hall
    obtain ⟨hn, hndrest⟩ := List.nodup_cons.mp hnd
    simp only [List.map_cons, List.sum_cons]
    have hco : ∀ m ∈ rest,
        ((l.filter (fun p => !(p.ns = n : Bool))).filter
          (fun p => p.ns = m)) = l.filter (fun p => p.ns = m) := by
      intro m hm
      have hmn : m ≠ n := fun e => hn (e ▸ hm)
      rw [List.filter_filter]
      apply List.filter_congr
      intro p _
      by_cases hpm : p.ns = m
      · simp [hpm, hmn]
      · simp [hpm]
    have hih := ih (l.filter (fun p => !(p.ns = n : Bool))) hndrest ?side
    case side =>
      intro p hp
      obtain ⟨hpl, hpn⟩ := List.mem_filter.mp hp
      have := hall p hpl
      simp only [List.mem_cons] at this
      rcases this with h | h
      · simp [h] at hpn
      · exact h
    have hmapeq :
        (rest.map (fun m =>
          (((l.filter (fun p => !(p.ns = n : Bool))).filter
            (fun p => p.ns = m)).map f).sum)) =
        (rest.map (fun m =>
          ((l.filter (fun p => p.ns = m)).map f).sum)) :=
      List.map_congr_left (fun m hm => by rw [hco m hm])
    rw [hmapeq] at hih
    rw [hih]
    exact sum_filter_split l (fun p => p.ns = n) f

theorem list_sum_map_mul_right {α : Type} (l : List α) (f : α → ℚ) (r : ℚ) :
    (l.map (fun x => f x * r)).sum = (l.map f).sum * r := by
  induction l with
  | nil => simp
  | cons a t ih => simp [ih]; ring

theorem nsNames_nodup (pods : List PodFact) : (nsNames pods).Nodup :=
  List.nodup_dedup _

theorem nsNames_covers (pods : List PodFact) :
    ∀ p ∈ pods, p.ns ∈ nsNames pods := fun p hp =>
  List.mem_dedup.mpr (List.mem_map_of_mem _ hp)

/-- The weighted shares reported by `calculateNamespaceCosts` over the
analyzer's namespaces always sum to
`(total cpu requested / total cpu + total memory requested / total memory) / 2`. -/
theorem sum_weightedShare (cap : ResourceCapacity) (pods : List PodFact)
    (tc : ℚ) :
    ((calculateNamespaceCosts tc (finiteNamespaces cap pods)).map
        (fun i => i.weightedShare)).sum =
      ((pods.map (fun p => p.cpu)).sum / cap.cpu +
       (pods.map (fun p => p.mem)).sum / cap.memory) / 2 := by
  simp only [calculateNamespaceCosts, finiteNamespaces, List.map_map]
  rw [List.map_congr_left (g := fun n =>
    (((pods.filter (fun p => p.ns = n)).map (fun p => p.cpu)).sum) *
      (cap.cpu⁻¹ * (2 : ℚ)⁻¹) +
    (((pods.filter (fun p => p.ns = n)).map (fun p => p.mem)).sum) *
      (cap.memory⁻¹ * (2 : ℚ)⁻¹))
    (fun n _ => by
      simp only [Function.comp_apply, buildNamespaceQ, podsIn]
      ring)]
  rw [list_sum_map_add, list_sum_map_mul_right, list_sum_map_mul_right,
    sum_over_groups _ _ _ (nsNames_nodup pods) (nsNames_covers pods),
    sum_over_groups _ _ _ (nsNames_nodup pods) (nsNames_covers pods)]
  ring

/-- C6 counterexample: a snapshot in which every pod belongs to exactly
one counted namespace but the cluster is only half utilized — one pod
requesting 1 CPU core and 1 GB against a 2-core / 2-GB capacity.  The
weighted shares sum to 1/2, far outside ±1e-6 of 1.0. -/
theorem c6_counterexample :
    ((calculateNamespaceCosts 1000 (finiteNamespaces { cpu := 2, memory := 2 }
        [{ ns := "a", cpu := 1, mem := 1, idle := false,
           spotEligible := false }])).map (fun i => i.weightedShare)).sum =
      1 / 2 ∧
    ¬ (|(1 : ℚ) / 2 - 1| ≤ 1 / 1000000) := by
  constructor
  · rw [sum_weightedShare]
    norm_num
  · rw [show ((1 : ℚ) / 2 - 1) = -(1 / 2) by norm_num, abs_neg,
      abs_of_nonneg (by norm_num : (0 : ℚ) ≤ 1 / 2)]
    norm_num

/-- C6 (amended): for every snapshot (in which, by construction, every
pod belongs to exactly one counted namespace) the weighted shares across
namespaces sum to
`(total_cpu_requested / total_cpu + total_mem_requested / total_mem) / 2`;
in particular the sum is exactly 1.0 whenever the summed pod requests
equal the cluster capacity in both dimensions, and it is far from 1.0
for under-utilized clusters — pod-uniqueness alone does not make it 1. -/
theorem c6_claim (cap : ResourceCapacity) (pods : List PodFact) (tc : ℚ) :
    ((calculateNamespaceCosts tc (finiteNamespaces cap pods)).map
        (fun i => i.weightedShare)).sum =
      ((pods.map (fun p => p.cpu)).sum / cap.cpu +
       (pods.map (fun p => p.mem)).sum / cap.memory) / 2 ∧
    (cap.cpu ≠ 0 → cap.memory ≠ 0 →
     (pods.map (fun p => p.cpu)).sum = cap.cpu →
     (pods.map (fun p => p.mem)).sum = cap.memory →
      ((calculateNamespaceCosts tc (finiteNamespaces cap pods)).map
          (fun i => i.weightedShare)).sum = 1) := by
  refine ⟨sum_weightedShare cap pods tc, fun hc hm h1 h2 => ?_⟩
  rw [sum_weightedShare, h1, h2, div_self hc, div_self hm]
  norm_num

theorem c6_witness :
    ((calculateNamespaceCosts 1000 (finiteNamespaces { cpu := 4, memory := 8 }
        [{ ns := "a", cpu := 1, mem := 6, idle := false, spotEligible := false },
         { ns := "b", cpu := 3, mem := 2, idle := false,
           spotEligible := true }])).map (fun i => i.weightedShare)).sum = 1 :=
  (c6_claim { cpu := 4, memory := 8 }
      [{ ns := "a", cpu := 1, mem := 6, idle := false, spotEligible := false },
       { ns := "b", cpu := 3, mem := 2, idle := false,
         spotEligible := true }] 1000).2
    (by norm_num) (by norm_num) (by norm_num) (by norm_num)

/-- Spec-side formula (C5): the size-scaled minimum threshold as the
claim words it — a fixed absolute floor for clusters with
`total_cost ≥ 2000`, otherwise a percentage of total cost with an
absolute floor. -/
def specScaledThreshold (totalCost fixed pct floorAmt : ℚ) : ℚ :=
  if totalCost ≥ 2000 then fixed else max (totalCost * pct) floorAmt

theorem code_threshold_eq (tc fixed pct floorAmt : ℚ) :
    (if tc < 2000 then (if tc * pct < floorAmt then floorAmt else tc * pct)
     else fixed) = specScaledThreshold tc fixed pct floorAmt := by
  simp only [specScaledThreshold, ge_iff_le, max_def]
  split_ifs <;> linarith

theorem spotMinThreshold_eq (tc : ℚ) :
    spotMinThreshold tc = specScaledThreshold tc 50 0.05 20 :=
  code_threshold_eq tc 50 0.05 20

theorem idleMinThreshold_eq (tc : ℚ) :
    idleMinThreshold tc = specScaledThreshold tc 30 0.03 15 :=
  code_threshold_eq tc 30 0.03 15

theorem rightsizeMinThreshold_eq (tc : ℚ) :
    rightsizeMinThreshold tc = specScaledThreshold tc 50 0.05 20 :=
  code_threshold_eq tc 50 0.05 20

theorem hpaMinThreshold_eq (tc : ℚ) :
    hpaMinThreshold tc = specScaledThreshold tc 100 0.10 30 :=
  code_threshold_eq tc 100 0.10 30

/-- C5: each optimization scenario is emitted only if its accumulated
pre-discount cost clears the size-scaled minimum threshold — for
`total_cost ≥ 2000` the fixed floors 50/30/50/100 for
spot/idle/rightsize/HPA, for `total_cost < 2000` the percentages
5%/3%/5%/10% of total cost with absolute floors 20/15/20/30 — and a
scenario whose cost is below its threshold is never emitted. -/
theorem c5_claim (tc : ℚ) (nss : List (NamespaceResourceUsage ℚ)) :
    ((generateSpotScenario tc nss).isSome →
      spotEligibleCost tc nss ≥ specScaledThreshold tc 50 0.05 20) ∧
    (spotEligibleCost tc nss < specScaledThreshold tc 50 0.05 20 →
      generateSpotScenario tc nss = none) ∧
    ((generateIdleScenario tc nss).isSome →
      idleCost tc nss ≥ specScaledThreshold tc 30 0.03 15) ∧
    (idleCost tc nss < specScaledThreshold tc 30 0.03 15 →
      generateIdleScenario tc nss = none) ∧
    ((generateRightsizeScenario tc nss).isSome →
      oversizedCost tc nss ≥ specScaledThreshold tc 50 0.05 20) ∧
    (oversizedCost tc nss < specScaledThreshold tc 50 0.05 20 →
      generateRightsizeScenario tc nss = none) ∧
    ((generateHPAScenario tc nss).isSome →
      hpaCandidateCost tc nss ≥ specScaledThreshold tc 100 0.10 30) ∧
    (hpaCandidateCost tc nss < specScaledThreshold tc 100 0.10 30 →
      generateHPAScenario tc nss = none) := by
  refine ⟨?_, ?_, ?_, ?_, ?_, ?_, ?_, ?_⟩
  · intro h
    rw [← spotMinThreshold_eq]
    by_contra hlt
    push_neg at hlt
    simp only [generateSpotScenario, if_pos hlt, Option.isSome_none] at h
    exact Bool.false_ne_true h
  · intro hlt
    rw [← spotMinThreshold_eq] at hlt
    simp only [generateSpotScenario, if_pos hlt]
  · intro h
    rw [← idleMinThreshold_eq]
    by_contra hlt
    push_neg at hlt
    simp only [generateIdleScenario, if_pos hlt, Option.isSome_none] at h
    exact Bool.false_ne_true h
  · intro hlt
    rw [← idleMinThreshold_eq] at hlt
    simp only [generateIdleScenario, if_pos hlt]
  · intro h
    rw [← rightsizeMinThreshold_eq]
    by_contra hlt
    push_neg at hlt
    simp only [generateRightsizeScenario, if_pos hlt, Option.isSome_none] at h
    exact Bool.false_ne_true h
  · intro hlt
    rw [← rightsizeMinThreshold_eq] at hlt
    simp only [generateRightsizeScenario, if_pos hlt]
  · intro h
    rw [← hpaMinThreshold_eq]
    by_contra hlt
    push_neg at hlt
    have hcond : hpaCandidateCost tc nss < hpaMinThreshold tc ∨
        (nss.filter (hpaCandidate tc)).length = 0 := Or.inl hlt
    simp only [generateHPAScenario, if_pos hcond, Option.isSome_none] at h
    exact Bool.false_ne_true h
  · intro hlt
    rw [← hpaMinThreshold_eq] at hlt
    have hcond : hpaCandidateCost tc nss < hpaMinThreshold tc ∨
        (nss.filter (hpaCandidate tc)).length = 0 := Or.inl hlt
    simp only [generateHPAScenario, if_pos hcond]

theorem c5_witness :
    spotEligibleCost 10000
      [{ name := "a", cpuCoresRequested := 5, memoryGBRequested := 5,
         podCount := 2, cpuPercent := 50, memoryPercent := 50, idlePods := 0,
         spotEligiblePods := 2, wasteScore := 0 }] ≥
      specScaledThreshold 10000 50 0.05 20 :=
  (c5_claim 10000 _).1
    (by norm_num [generateSpotScenario, spotEligibleCost, spotMinThreshold])

theorem finiteNamespaces_facts (cap : ResourceCapacity) (pods : List PodFact)
    (hcpu : 0 < cap.cpu) (hmem : 0 < cap.memory)
    (hpods : ∀ p ∈ pods, 0 ≤ p.cpu ∧ 0 ≤ p.mem) :
    ∀ ns ∈ finiteNamespaces cap pods,
      0 ≤ ns.cpuPercent ∧ 0 ≤ ns.memoryPercent ∧
      ns.spotEligiblePods ≤ ns.podCount := by
  intro ns hns
  simp only [finiteNamespaces, List.mem_map] at hns
  obtain ⟨n, _, rfl⟩ := hns
  simp only [buildNamespaceQ]
  have hcsum : 0 ≤ ((podsIn pods n).map (fun p => p.cpu)).sum := by
    apply List.sum_nonneg
    intro x hx
    simp only [List.mem_map] at hx
    obtain ⟨p, hp, rfl⟩ := hx
    exact (hpods p (List.mem_of_mem_filter hp)).1
  have hmsum : 0 ≤ ((podsIn pods n).map (fun p => p.mem)).sum := by
    apply List.sum_nonneg
    intro x hx
    simp only [List.mem_map] at hx
    obtain ⟨p, hp, rfl⟩ := hx
    exact (hpods p (List.mem_of_mem_filter hp)).2
  refine ⟨?_, ?_, ?_⟩
  · have := div_nonneg hcsum (le_of_lt hcpu)
    nlinarith
  · have := div_nonneg hmsum (le_of_lt hmem)
    nlinarith
  · exact List.length_filter_le _ _

theorem spotEligibleCost_nonneg (tc : ℚ)
    (nss : List (NamespaceResourceUsage ℚ)) (htc : 0 ≤ tc)
    (hns : ∀ ns ∈ nss, 0 ≤ ns.cpuPercent ∧ 0 ≤ ns.memoryPercent) :
    0 ≤ spotEligibleCost tc nss := by
  apply List.sum_nonneg
  intro x hx
  simp only [spotEligibleCost, List.mem_map] at hx
  obtain ⟨ns, hmemb, rfl⟩ := hx
  obtain ⟨hp1, hp2⟩ := hns ns hmemb
  split_ifs
  · have hws : 0 ≤ (ns.cpuPercent + ns.memoryPercent) / 2 / 100 := by positivity
    have hr : (0 : ℚ) ≤ (ns.spotEligiblePods : ℚ) / (ns.podCount : ℚ) := by
      positivity
    exact mul_nonneg (mul_nonneg htc hws) hr
  · exact le_refl 0
  · exact le_refl 0

theorem idleCost_nonneg (tc : ℚ) (nss : List (NamespaceResourceUsage ℚ))
    (htc : 0 ≤ tc)
    (hns : ∀ ns ∈ nss, 0 ≤ ns.cpuPercent ∧ 0 ≤ ns.memoryPercent) :
    0 ≤ idleCost tc nss := by
  apply List.sum_nonneg
  intro x hx
  simp only [idleCost, List.mem_map] at hx
  obtain ⟨ns, hmemb, rfl⟩ := hx
  obtain ⟨hp1, hp2⟩ := hns ns hmemb
  split_ifs
  · have hws : 0 ≤ (ns.cpuPercent + ns.memoryPercent) / 2 / 100 := by positivity
    exact mul_nonneg htc hws
  · exact le_refl 0
  · exact le_refl 0

theorem oversizedCost_nonneg (tc : ℚ) (nss : List (NamespaceResourceUsage ℚ))
    (htc : 0 ≤ tc)
    (hns : ∀ ns ∈ nss, 0 ≤ ns.cpuPercent ∧ 0 ≤ ns.memoryPercent) :
    0 ≤ oversizedCost tc nss := by
  apply List.sum_nonneg
  intro x hx
  simp only [oversizedCost, List.mem_map] at hx
  obtain ⟨ns, hmemb, rfl⟩ := hx
  obtain ⟨hp1, hp2⟩ := hns ns hmemb
  split_ifs
  · have hws : 0 ≤ (ns.cpuPercent + ns.memoryPercent) / 2 / 100 := by positivity
    exact mul_nonneg htc hws
  · exact le_refl 0
  · exact le_refl 0

theorem hpaCandidateCost_nonneg (tc : ℚ)
    (nss : List (NamespaceResourceUsage ℚ)) (htc : 0 ≤ tc)
    (hns : ∀ ns ∈ nss, 0 ≤ ns.cpuPercent ∧ 0 ≤ ns.memoryPercent) :
    0 ≤ hpaCandidateCost tc nss := by
  apply List.sum_nonneg
  intro x hx
  simp only [hpaCandidateCost, List.mem_map] at hx
  obtain ⟨ns, hmemb, rfl⟩ := hx
  obtain ⟨hp1, hp2⟩ := hns ns hmemb
  split_ifs
  · have hws : 0 ≤ ns.weightedShare := by
      unfold NamespaceResourceUsage.weightedShare
      positivity
    exact mul_nonneg htc hws
  · exact le_refl 0

theorem spotScenario_mono (tc : ℚ) (nss : List (NamespaceResourceUsage ℚ))
    (hc : 0 ≤ spotEligibleCost tc nss) :
    ∀ sc ∈ generateSpotScenario tc nss,
      sc.currentCost.Mono ∧ sc.afterCost.Mono ∧ sc.savings.Mono := by
  intro sc hsc
  simp only [generateSpotScenario, Option.mem_def] at hsc
  split_ifs at hsc
  obtain rfl := (Option.some_inj.mp hsc).symm
  refine ⟨⟨?_, ?_, ?_⟩, ⟨?_, ?_, ?_⟩, ⟨?_, ?_, ?_⟩⟩ <;> nlinarith [hc]

theorem idleScenario_mono (tc : ℚ) (nss : List (NamespaceResourceUsage ℚ))
    (hc : 0 ≤ idleCost tc nss) :
    ∀ sc ∈ generateIdleScenario tc nss,
      sc.currentCost.Mono ∧ sc.afterCost.Mono ∧ sc.savings.Mono := by
  intro sc hsc
  simp only [generateIdleScenario, Option.mem_def] at hsc
  split_ifs at hsc
  obtain rfl := (Option.some_inj.mp hsc).symm
  refine ⟨⟨?_, ?_, ?_⟩, ⟨?_, ?_, ?_⟩, ⟨?_, ?_, ?_⟩⟩ <;> nlinarith [hc]

theorem rightsizeScenario_mono (tc : ℚ)
    (nss : List (NamespaceResourceUsage ℚ))
    (hc : 0 ≤ oversizedCost tc nss) :
    ∀ sc ∈ generateRightsizeScenario tc nss,
      sc.currentCost.Mono ∧ sc.afterCost.Mono ∧ sc.savings.Mono := by
  intro sc hsc
  simp only [generateRightsizeScenario, Option.mem_def] at hsc
  split_ifs at hsc
  obtain rfl := (Option.some_inj.mp hsc).symm
  refine ⟨⟨?_, ?_, ?_⟩, ⟨?_, ?_, ?_⟩, ⟨?_, ?_, ?_⟩⟩ <;> nlinarith [hc]

theorem hpaScenario_mono (tc : ℚ) (nss : List (NamespaceResourceUsage ℚ))
    (hc : 0 ≤ hpaCandidateCost tc nss) :
    ∀ sc ∈ generateHPAScenario tc nss,
      sc.currentCost.Mono ∧ sc.afterCost.Mono ∧ sc.savings.Mono := by
  intro sc hsc
  simp only [generateHPAScenario, Option.mem_def] at hsc
  split_ifs at hsc
  obtain rfl := (Option.some_inj.mp hsc).symm
  refine ⟨⟨?_, ?_, ?_⟩, ⟨?_, ?_, ?_⟩, ⟨?_, ?_, ?_⟩⟩ <;> nlinarith [hc]

theorem calculateTotalSavings_mono (scens : List OptimizationScenario)
    (h : ∀ s ∈ scens, s.savings.Mono) :
    (calculateTotalSavings scens).Mono := by
  unfold calculateTotalSavings CostRange.Mono
  refine ⟨List.sum_nonneg ?_, List.sum_le_sum ?_, List.sum_le_sum ?_⟩
  · intro x hx
    simp only [List.mem_map] at hx
    obtain ⟨s, hs, rfl⟩ := hx
    exact (h s hs).1
  · intro s hs
    exact (h s hs).2.1
  · intro s hs
    exact (h s hs).2.2

theorem calculateTotalRisk_mono (cats : List RiskCategory)
    (h : ∀ c ∈ cats, c.riskExposure.Mono) :
    (calculateTotalRisk cats).Mono := by
  unfold calculateTotalRisk CostRange.Mono
  refine ⟨List.sum_nonneg ?_, List.sum_le_sum ?_, List.sum_le_sum ?_⟩
  · intro x hx
    simp only [List.mem_map] at hx
    obtain ⟨c, hcm, rfl⟩ := hx
    exact (h c hcm).1
  · intro c hcm
    exact (h c hcm).2.1
  · intro c hcm
    exact (h c hcm).2.2

theorem riskCategories_mono (cfg : RiskCostConfig) (risks : SecurityRisks)
    (hc1 : 0 ≤ cfg.privilegedContainerCost) (hc2 : 0 ≤ cfg.hostPathCost)
    (hc3 : 0 ≤ cfg.hostPIDCost) (hc4 : 0 ≤ cfg.runningAsRootCost)
    (hc5 : 0 ≤ cfg.hostNetworkCost) (hc6 : 0 ≤ cfg.missingLimitsCost)
    (hc7 : 0 ≤ cfg.defaultSACost) :
    ∀ cat ∈ calculateRiskCategories cfg risks, cat.riskExposure.Mono := by
  intro cat hcat
  simp only [calculateRiskCategories, List.append_assoc, List.mem_append] at hcat
  rcases hcat with h|h|h|h|h|h|h <;> obtain rfl := mem_ite_singleton h
  · have hkc : (0 : ℚ) ≤ (risks.privilegedContainers : ℚ) *
        cfg.privilegedContainerCost := mul_nonneg (Nat.cast_nonneg _) hc1
    refine ⟨?_, ?_, ?_⟩ <;> nlinarith [hkc]
  · have hkc : (0 : ℚ) ≤ (risks.hostPathVolumes : ℚ) * cfg.hostPathCost :=
      mul_nonneg (Nat.cast_nonneg _) hc2
    refine ⟨?_, ?_, ?_⟩ <;> nlinarith [hkc]
  · have hkc : (0 : ℚ) ≤ (risks.hostPID : ℚ) * cfg.hostPIDCost :=
      mul_nonneg (Nat.cast_nonneg _) hc3
    refine ⟨?_, ?_, ?_⟩ <;> nlinarith [hkc]
  · have hkc : (0 : ℚ) ≤ (risks.runningAsRoot : ℚ) * cfg.runningAsRootCost :=
      mul_nonneg (Nat.cast_nonneg _) hc4
    refine ⟨?_, ?_, ?_⟩ <;> nlinarith [hkc]
  · have hkc : (0 : ℚ) ≤ (risks.hostNetwork : ℚ) * cfg.hostNetworkCost :=
      mul_nonneg (Nat.cast_nonneg _) hc5
    refine ⟨?_, ?_, ?_⟩ <;> nlinarith [hkc]
  · have hkc : (0 : ℚ) ≤ (risks.missingResourceLimits : ℚ) *
        cfg.missingLimitsCost := mul_nonneg (Nat.cast_nonneg _) hc6
    refine ⟨?_, ?_, ?_⟩ <;> nlinarith [hkc]
  · have hkc : (0 : ℚ) ≤ (risks.defaultServiceAccount : ℚ) * cfg.defaultSACost :=
      mul_nonneg (Nat.cast_nonneg _) hc7
    refine ⟨?_, ?_, ?_⟩ <;> nlinarith [hkc]

theorem scenarios_mono (tc : ℚ) (nss : List (NamespaceResourceUsage ℚ))
    (htc : 0 ≤ tc)
    (hns : ∀ ns ∈ nss, 0 ≤ ns.cpuPercent ∧ 0 ≤ ns.memoryPercent) :
    ∀ sc ∈ generateOptimizationScenarios tc nss,
      sc.currentCost.Mono ∧ sc.afterCost.Mono ∧ sc.savings.Mono := by
  intro sc hsc
  simp only [generateOptimizationScenarios, List.mem_filterMap, List.mem_cons,
    List.not_mem_nil, or_false, id] at hsc
  obtain ⟨o, ho, heq⟩ := hsc
  rcases ho with rfl | rfl | rfl | rfl
  · exact spotScenario_mono tc nss (spotEligibleCost_nonneg tc nss htc hns) sc heq
  · exact idleScenario_mono tc nss (idleCost_nonneg tc nss htc hns) sc heq
  · exact rightsizeScenario_mono tc nss (oversizedCost_nonneg tc nss htc hns) sc heq
  · exact hpaScenario_mono tc nss (hpaCandidateCost_nonneg tc nss htc hns) sc heq

/-- C2: for every wellformed fact snapshot (positive cluster capacity,
nonnegative pod requests — the fact model's domain) and positive total
cost, every `CostRange` in the cost estimate (per-namespace estimated
cost, every scenario's current/after/savings range, the total savings
potential) and every risk-side range (per-category exposure for any
config with nonnegative unit breach costs, which all four presets have,
and the total exposure) satisfies `0 ≤ low ≤ best ≤ high`. -/
theorem c2_claim (cap : ResourceCapacity) (pods : List PodFact) (tc : ℚ)
    (cfg : RiskCostConfig) (risks : SecurityRisks)
    (hcpu : 0 < cap.cpu) (hmem : 0 < cap.memory) (htc : 0 < tc)
    (hpods : ∀ p ∈ pods, 0 ≤ p.cpu ∧ 0 ≤ p.mem)
    (hc1 : 0 ≤ cfg.privilegedContainerCost) (hc2 : 0 ≤ cfg.hostPathCost)
    (hc3 : 0 ≤ cfg.hostPIDCost) (hc4 : 0 ≤ cfg.runningAsRootCost)
    (hc5 : 0 ≤ cfg.hostNetworkCost) (hc6 : 0 ≤ cfg.missingLimitsCost)
    (hc7 : 0 ≤ cfg.defaultSACost) :
    (∀ est ∈ AnalyzeCosts tc (finiteNamespaces cap pods),
      (∀ nc ∈ est.namespaceCosts, nc.estimatedCost.Mono) ∧
      (∀ sc ∈ est.optimizationScenarios,
        sc.currentCost.Mono ∧ sc.afterCost.Mono ∧ sc.savings.Mono) ∧
      est.totalSavingsPotential.Mono) ∧
    (∀ cat ∈ calculateRiskCategories cfg risks, cat.riskExposure.Mono) ∧
    (calculateTotalRisk (calculateRiskCategories cfg risks)).Mono := by
  have hfacts := finiteNamespaces_facts cap pods hcpu hmem hpods
  have hns : ∀ ns ∈ finiteNamespaces cap pods,
      0 ≤ ns.cpuPercent ∧ 0 ≤ ns.memoryPercent :=
    fun ns h => ⟨(hfacts ns h).1, (hfacts ns h).2.1⟩
  have hscen := scenarios_mono tc (finiteNamespaces cap pods) (le_of_lt htc) hns
  have hcats := riskCategories_mono cfg risks hc1 hc2 hc3 hc4 hc5 hc6 hc7
  refine ⟨?_, hcats, calculateTotalRisk_mono _ hcats⟩
  intro est hest
  simp only [AnalyzeCosts, Option.mem_def] at hest
  rw [if_neg (not_le.mpr htc)] at hest
  obtain rfl := (Option.some_inj.mp hest).symm
  refine ⟨?_, hscen, calculateTotalSavings_mono _ (fun s hs => (hscen s hs).2.2)⟩
  intro nc hnc
  simp only [calculateNamespaceCosts, List.mem_map] at hnc
  obtain ⟨ns, hnsm, rfl⟩ := hnc
  obtain ⟨hp1, hp2, hsp⟩ := hfacts ns hnsm
  apply calculateCostRange_mono
  · have hws : 0 ≤ (ns.cpuPercent + ns.memoryPercent) / 2 / 100 := by positivity
    exact mul_nonneg (le_of_lt htc) hws
  · exact hsp

theorem c2_witness :
    (∀ est ∈ AnalyzeCosts 1000
        (finiteNamespaces { cpu := 4, memory := 8 }
          [{ ns := "a", cpu := 1, mem := 2, idle := true, spotEligible := true },
           { ns := "b", cpu := 3, mem := 2, idle := false,
             spotEligible := false }]),
      (∀ nc ∈ est.namespaceCosts, nc.estimatedCost.Mono) ∧
      (∀ sc ∈ est.optimizationScenarios,
        sc.currentCost.Mono ∧ sc.afterCost.Mono ∧ sc.savings.Mono) ∧
      est.totalSavingsPotential.Mono) ∧
    (∀ cat ∈ calculateRiskCategories DefaultConfig
        { runningAsRoot := 2, privilegedContainers := 1, hostNetwork := 1,
          hostPID := 0, hostIPC := 0, hostPathVolumes := 0,
          defaultServiceAccount := 3, missingResourceLimits := 4,
          missingProbes := 0, addedCapabilities := 0,
          privilegeEscalation := 0, writableFilesystem := 0 },
      cat.riskExposure.Mono) ∧
    (calculateTotalRisk (calculateRiskCategories DefaultConfig
        { runningAsRoot := 2, privilegedContainers := 1, hostNetwork := 1,
          hostPID := 0, hostIPC := 0, hostPathVolumes := 0,
          defaultServiceAccount := 3, missingResourceLimits := 4,
          missingProbes := 0, addedCapabilities := 0,
          privilegeEscalation := 0, writableFilesystem := 0 })).Mono :=
  c2_claim { cpu := 4, memory := 8 } _ 1000 DefaultConfig _
    (by norm_num) (by norm_num) (by norm_num)
    (by intro p hp; fin_cases hp <;> norm_num)
    (by norm_num [DefaultConfig]) (by norm_num [DefaultConfig])
    (by norm_num [DefaultConfig]) (by norm_num [DefaultConfig])
    (by norm_num [DefaultConfig]) (by norm_num [DefaultConfig])
    (by norm_num [DefaultConfig])
